import Mathlib

/-!
# Verification of the manifest capture engine (`capture_manifest.py`)

A shallow embedding of the manifest-capture script: the candidate
classifier (`looks_like_m3u8` with its URL regex `M3U8_PAT` and MIME
set `M3U8_CT`), the candidate collection (`maybe_add` inside
`collect_manifests`), the playback activator (`click_play_in_frame`),
and the orchestration (`run`), together with theorems settling the
spec's claims about them.
-/

namespace Capture

/-! ## Candidate classifier

`M3U8_PAT = re.compile(r"\.m3u8(\?|$)", re.IGNORECASE)` is modelled as
an executable search over the URL's character list: `m3u8At l` decides
whether `l` starts with `.m3u8` (case-insensitive on the letters)
followed by `?` or end of string, and `m3u8Search` tries every suffix,
exactly as `re.search` tries every start position. -/

/-- The continuation allowed after `.m3u8` by the pattern `(\?|$)`: a literal
`?`, the end of the string, or — because Python's `$` without `re.MULTILINE`
also matches just before a trailing newline — a newline that ends the
string. -/
def restOk : List Char → Bool
  | [] => true
  | c :: rest => c == '?' || (c == '\n' && rest.isEmpty)

/-- Does the character list start with `.m3u8` (letters case-insensitive,
per `re.IGNORECASE`) followed by `?` or end of input? -/
def m3u8At : List Char → Bool
  | c1 :: c2 :: c3 :: c4 :: c5 :: rest =>
    c1 == '.' && (c2 == 'm' || c2 == 'M') && c3 == '3' &&
      (c4 == 'u' || c4 == 'U') && c5 == '8' && restOk rest
  | _ => false

/-- `re.search`: try the pattern at every start position. -/
def m3u8Search : List Char → Bool
  | [] => false
  | c :: rest => m3u8At (c :: rest) || m3u8Search rest

/-- `M3U8_PAT.search(url)` as a Boolean. -/
def M3U8_PAT_search (url : String) : Bool :=
  m3u8Search url.data

/-- `M3U8_CT = ("application/vnd.apple.mpegurl", "application/x-mpegURL", "audio/mpegurl")`. -/
def M3U8_CT : List String :=
  ["application/vnd.apple.mpegurl", "application/x-mpegURL", "audio/mpegurl"]

/-- `content_type.split(";")[0]`: the characters before the first `;`. -/
def takeUntilSemi : List Char → List Char
  | [] => []
  | c :: rest => if c == ';' then [] else c :: takeUntilSemi rest

/-- Python `str.strip()`: drop leading and trailing whitespace. -/
def stripWs (l : List Char) : List Char :=
  ((l.dropWhile Char.isWhitespace).reverse.dropWhile Char.isWhitespace).reverse

/-- `content_type.split(";")[0].strip()`. -/
def ctCanon (ct : String) : String :=
  String.mk (stripWs (takeUntilSemi ct.data))

/-- `looks_like_m3u8(url, content_type)` from the source: URL regex first,
then (when `content_type` is truthy, i.e. neither `None` nor empty) exact
membership of the canonicalised content type in `M3U8_CT`. -/
def looks_like_m3u8 (url : String) (content_type : Option String) : Bool :=
  if M3U8_PAT_search url then true
  else
    match content_type with
    | none => false
    | some ct => if ct == "" then false else M3U8_CT.contains (ctCanon ct)

/-! ## Basic lemmas about the pattern search -/

theorem m3u8Search_append_of_right (a p : List Char) (h : m3u8Search p = true) :
    m3u8Search (a ++ p) = true := by
  induction a with
  | nil => simpa using h
  | cons c t ih =>
    simp only [List.cons_append, m3u8Search, Bool.or_eq_true]
    exact Or.inr ih

theorem restOk_iff (l : List Char) :
    restOk l = true ↔ (l = [] ∨ l = ['\n'] ∨ ∃ t, l = '?' :: t) := by
  cases l with
  | nil => simp [restOk]
  | cons c t =>
    simp only [restOk, Bool.or_eq_true, Bool.and_eq_true, beq_iff_eq,
      List.isEmpty_iff, List.cons.injEq]
    constructor
    · rintro (h | ⟨h1, h2⟩)
      · exact Or.inr (Or.inr ⟨t, h, rfl⟩)
      · exact Or.inr (Or.inl ⟨h1, h2⟩)
    · rintro (h | ⟨h1, h2⟩ | ⟨t', h1, h2⟩)
      · exact absurd h (by simp)
      · exact Or.inr ⟨h1, h2⟩
      · exact Or.inl h1

theorem m3u8At_true_iff (l : List Char) :
    m3u8At l = true ↔
      ∃ m u rest, l = '.' :: m :: '3' :: u :: '8' :: rest ∧
        (m = 'm' ∨ m = 'M') ∧ (u = 'u' ∨ u = 'U') ∧
        (rest = [] ∨ rest = ['\n'] ∨ ∃ t, rest = '?' :: t) := by
  match l with
  | [] => simp [m3u8At]
  | [c1] => simp [m3u8At]
  | [c1, c2] => simp [m3u8At]
  | [c1, c2, c3] => simp [m3u8At]
  | [c1, c2, c3, c4] => simp [m3u8At]
  | c1 :: c2 :: c3 :: c4 :: c5 :: rest =>
    simp only [m3u8At, Bool.and_eq_true, Bool.or_eq_true, beq_iff_eq,
      List.cons.injEq, restOk_iff]
    constructor
    · rintro ⟨⟨⟨⟨⟨h1, h2⟩, h3⟩, h4⟩, h5⟩, h6⟩
      exact ⟨c2, c4, rest, ⟨h1, rfl, h3, rfl, h5, rfl⟩, h2, h4, h6⟩
    · rintro ⟨m, u, r, ⟨h1, hm, h3, hu, h5, hr⟩, h2, h4, h6⟩
      subst h1 h3 h5 hm hu hr
      exact ⟨⟨⟨⟨⟨rfl, h2⟩, rfl⟩, h4⟩, rfl⟩, h6⟩

/-- Where the pattern search succeeds: some suffix matches `m3u8At`. -/
theorem m3u8Search_true_iff (l : List Char) :
    m3u8Search l = true ↔ ∃ a b, l = a ++ b ∧ m3u8At b = true := by
  induction l with
  | nil =>
    simp only [m3u8Search, Bool.false_eq_true, false_iff]
    rintro ⟨a, b, hab, hb⟩
    rcases List.append_eq_nil.mp hab.symm with ⟨rfl, rfl⟩
    simp [m3u8At] at hb
  | cons c t ih =>
    simp only [m3u8Search, Bool.or_eq_true, ih]
    constructor
    · rintro (h | ⟨a, b, rfl, hb⟩)
      · exact ⟨[], c :: t, rfl, h⟩
      · exact ⟨c :: a, b, rfl, hb⟩
    · rintro ⟨a, b, hab, hb⟩
      cases a with
      | nil =>
        simp only [List.nil_append] at hab
        subst hab; exact Or.inl hb
      | cons a0 as =>
        simp only [List.cons_append, List.cons.injEq] at hab
        exact Or.inr ⟨as, b, hab.2, hb⟩

/-! ## Candidate ledger (`found` list and `maybe_add` in `collect_manifests`) -/

/-- One entry of the `found` list: `{"url": ..., "content_type": ct or "", "source": kind}`. -/
structure Candidate where
  url : String
  content_type : String
  source : String
  deriving Repr, DecidableEq

/-- `maybe_add(kind, url, ct)`: skip falsy URLs, classify, and append unless a
candidate with the *exact same* URL string is already present. -/
def maybe_add (found : List Candidate) (kind url : String) (ct : Option String) :
    List Candidate :=
  if url == "" then found
  else if looks_like_m3u8 url ct then
    if found.any (fun x => x.url == url) then found
    else found ++ [{ url := url, content_type := ct.getD "", source := kind }]
  else found

/-- A network lifecycle notification delivered by the browser session.
`page.on("request", ...)` supplies no content type; `page.on("response", ...)`
supplies `resp.headers.get("content-type", "")` (a string, possibly empty). -/
inductive NetEvent where
  | request (url : String)
  | response (url : String) (ct : String)
  deriving Repr, DecidableEq

/-- How the registered handlers fold one event into the `found` list. -/
def handleEvent (found : List Candidate) : NetEvent → List Candidate
  | .request u => maybe_add found "request" u none
  | .response u ct => maybe_add found "response" u (some ct)

def processEvents (found : List Candidate) (evs : List NetEvent) : List Candidate :=
  evs.foldl handleEvent found

/-- The page as the engine observes it: the network events delivered during the
initial load/idle waits, those delivered after the play-click attempts, those
delivered during the final grace wait, and the `src` URLs of any
`<video>`/`<source>` elements present in the DOM.  `domVideoSources` models DOM
content that the browser exposes to the script; `collect_manifests` in the
source never queries it. -/
structure PageEnv where
  initialEvents : List NetEvent
  postClickEvents : List NetEvent
  lateEvents : List NetEvent
  domVideoSources : List String

/-- `collect_manifests`: handlers are attached, the initial waits collect
events; if nothing was found, play is clicked and the post-click events are
collected; the final grace wait collects the late events.  The result is the
`found` list. -/
def collect_manifests (env : PageEnv) : List Candidate :=
  let f1 := processEvents [] env.initialEvents
  let f2 := if f1.isEmpty then processEvents f1 env.postClickEvents else f1
  processEvents f2 env.lateEvents

/-! ## Playback activator (`click_play_in_frame`) -/

/-- An error raised by a browser-automation primitive (element not
interactable, frame detached, evaluation failure, ...). -/
def PWErr : Type := String

/-- `COMMON_PLAY_SELECTORS` from the source. -/
def COMMON_PLAY_SELECTORS : List String :=
  ["button[aria-label='Play']",
   "button[title='Play']",
   "button:has-text('Play')",
   "button.play",
   ".vjs-play-control",
   ".jw-controlbar .jw-icon-playback",
   ".ytp-play-button",
   "[data-control='play']",
   "video"]

/-- The behaviour of one frame's automation primitives: each may raise.
`query sel` returns whether an element matched (`none` = no element);
`click sel` clicks the element found for `sel`; `wait` is
`frame.wait_for_timeout`; `eval` is the window-size evaluation and
`mouseClick` the synthetic center click of the final fallback. -/
structure FrameEnv where
  query : String → Except PWErr (Option Unit)
  click : String → Except PWErr Unit
  focus : String → Except PWErr Unit
  press : Except PWErr Unit
  wait : Except PWErr Unit
  eval : Except PWErr Unit
  mouseClick : Except PWErr Unit

/-- The body of one iteration of the selector loop, *without* the enclosing
`except Exception: continue`: query the selector (errors propagate); if an
element is found, click it — a click failure is swallowed and the best-effort
`focus`/`press("Space")` fallbacks run, their own failures swallowed and their
results discarded — then `wait_for_timeout` (errors propagate) and return
`True`.  `ok none` means the loop falls through to the next selector. -/
def selectorBody (env : FrameEnv) (sel : String) : Except PWErr (Option Bool) :=
  match env.query sel with
  | .error e => .error e
  | .ok none => .ok none
  | .ok (some _) =>
    let _ :=
      match env.click sel with
      | .ok _ => ()
      | .error _ =>
        let _ := env.focus sel
        let _ := env.press
        ()
    match env.wait with
    | .error e => .error e
    | .ok _ => .ok (some true)

/-- The final-resort block: evaluate the window size, click the frame center,
wait; any error in the block yields `False`. -/
def fallbackClick (env : FrameEnv) : Except PWErr Bool :=
  match env.eval with
  | .error _ => .ok false
  | .ok _ =>
    match env.mouseClick with
    | .error _ => .ok false
    | .ok _ =>
      match env.wait with
      | .error _ => .ok false
      | .ok _ => .ok true

/-- The selector loop of `click_play_in_frame`: each iteration's errors are
caught by `except Exception: continue`; when the list is exhausted the final
center-click fallback runs. -/
def clickPlayLoop (env : FrameEnv) : List String → Except PWErr Bool
  | [] => fallbackClick env
  | sel :: rest =>
    match selectorBody env sel with
    | .ok (some b) => .ok b
    | .ok none => clickPlayLoop env rest
    | .error _ => clickPlayLoop env rest

/-- `click_play_in_frame(frame, ...)` over the fixed selector list. -/
def click_play_in_frame (env : FrameEnv) : Except PWErr Bool :=
  clickPlayLoop env COMMON_PLAY_SELECTORS

/-! ## Orchestration (`run`) -/

/-- What `page.goto(...)` did: completed, raised the caught
`playwright TimeoutError`, or raised some other (uncaught) error such as a
DNS or connection failure. -/
inductive NavResult where
  | ok
  | timeout
  | hardError
  deriving Repr, DecidableEq

/-- The fields of the `session_info.json` record relevant to detection
(`har_path`, `storage_state` and `ts` are artifact bookkeeping). -/
structure SessionInfo where
  page_url : String
  manifest_url : String
  all_manifests : List Candidate
  deriving Repr, DecidableEq

/-- How the process run ends: `sys.exit(code)`, an exception propagating out
of `run`, or a normal return after writing `session_info.json`. -/
inductive RunResult where
  | exit (code : Nat)
  | uncaught
  | success (info : SessionInfo)
  deriving Repr, DecidableEq

/-- `run(opts)` after browser launch: a navigation timeout prints an error and
exits with status 1; any other navigation error is not caught; otherwise the
manifests are collected, and an empty result prints an error and exits with
status 1 while a non-empty result writes `session_info.json` with
`manifest_url = manifests[0]["url"]`. -/
def run (nav : NavResult) (page_url : String) (env : PageEnv) : RunResult :=
  match nav with
  | .timeout => .exit 1
  | .hardError => .uncaught
  | .ok =>
    match collect_manifests env with
    | [] => .exit 1
    | m :: rest =>
      .success { page_url := page_url, manifest_url := m.url,
                 all_manifests := m :: rest }

/-- The externally visible steps of `run`, in source order, for the temporal
claims.  `attachRequestHandler`/`attachResponseHandler` are the two
`page.on(...)` registrations at the top of `collect_manifests`. -/
inductive Step where
  | launchBrowser
  | newContext
  | newPage
  | goto
  | consentClicks
  | attachRequestHandler
  | attachResponseHandler
  | observeAndActivate
  | storageState
  | closeBrowser
  | printError
  | exitOne
  | raiseUncaught
  | writeSessionInfo
  deriving Repr, DecidableEq

/-- The step trace of `run`, as a function of how navigation ended and whether
the collected manifest list was empty. -/
def runTrace (nav : NavResult) (manifestsEmpty : Bool) : List Step :=
  [.launchBrowser, .newContext, .newPage, .goto] ++
    match nav with
    | .timeout => [.printError, .closeBrowser, .exitOne]
    | .hardError => [.raiseUncaught]
    | .ok =>
      [.consentClicks, .attachRequestHandler, .attachResponseHandler,
       .observeAndActivate, .storageState, .closeBrowser] ++
        (if manifestsEmpty then [.printError, .exitOne] else [.writeSessionInfo])

/-! ## Spec-side definitions

These two follow the spec's words, not the source, and exist to state the
refinement claims about deduplication and selection. -/

/-- Modelled from the spec: the Ledger's dedup key — "URL with query string
stripped, scheme+host+path lowercased". -/
def specNormKey (url : String) : String :=
  String.mk ((takeUntilQuery url.data).map Char.toLower)
where
  takeUntilQuery : List Char → List Char
    | [] => []
    | c :: rest => if c == '?' then [] else c :: takeUntilQuery rest

/-- Python's `pat in s` substring test, used to state the spec's
`master`/`index` selection rule. -/
def strContains (s pat : String) : Bool :=
  go pat.data s.data
where
  isPrefixOfChars : List Char → List Char → Bool
    | [], _ => true
    | _ :: _, [] => false
    | a :: as, b :: bs => a == b && isPrefixOfChars as bs
  go (pat : List Char) : List Char → Bool
    | [] => isPrefixOfChars pat []
    | c :: rest => isPrefixOfChars pat (c :: rest) || go pat rest

/-! ## Helper lemmas -/

/-- With no content type, classification is exactly the URL pattern search. -/
theorem looks_like_m3u8_none (url : String) :
    looks_like_m3u8 url none = M3U8_PAT_search url := by
  unfold looks_like_m3u8
  cases h : M3U8_PAT_search url <;> simp [h]

theorem M3U8_PAT_search_append_suffix (s : String) (p : List Char)
    (h : m3u8Search p = true) : M3U8_PAT_search (s ++ String.mk p) = true := by
  unfold M3U8_PAT_search
  rw [String.data_append]
  exact m3u8Search_append_of_right s.data p h

theorem clickPlayLoop_never_raises (env : FrameEnv) (sels : List String) :
    ∃ b, clickPlayLoop env sels = Except.ok b := by
  induction sels with
  | nil =>
    show ∃ b, fallbackClick env = Except.ok b
    unfold fallbackClick
    cases env.eval with
    | error e => exact ⟨false, rfl⟩
    | ok u =>
      cases env.mouseClick with
      | error e => exact ⟨false, rfl⟩
      | ok u2 =>
        cases env.wait with
        | error e => exact ⟨false, rfl⟩
        | ok u3 => exact ⟨true, rfl⟩
  | cons sel rest ih =>
    show ∃ b, (match selectorBody env sel with
      | .ok (some b) => Except.ok b
      | .ok none => clickPlayLoop env rest
      | .error _ => clickPlayLoop env rest) = Except.ok b
    cases selectorBody env sel with
    | error e => exact ih
    | ok o =>
      cases o with
      | none => exact ih
      | some b => exact ⟨b, rfl⟩

/-! ## Claims -/

/-- C5 counterexample: the claim asserts that a URL ending in `.mpd` is
classified as a DASH candidate, but the classifier rejects it outright —
there is no DASH kind anywhere in the code (`looks_like_m3u8` is the only
classifier and it tests only the `.m3u8` pattern and HLS MIME types). -/
theorem C5_counterexample :
    looks_like_m3u8 "https://cdn.example.com/v.mpd" none = false := by decide

/-- C5 (amended): every URL ending in `.m3u8`, with or without a trailing
query string, is accepted as an HLS candidate; there is no DASH kind, and a
URL ending in `.mpd` (e.g. `https://cdn.example.com/v.mpd`) is not accepted
by the URL pattern. -/
theorem C5_thm (s q : String) :
    looks_like_m3u8 (s ++ ".m3u8") none = true ∧
    looks_like_m3u8 (s ++ ".m3u8?" ++ q) none = true ∧
    looks_like_m3u8 "https://cdn.example.com/v.mpd" none = false := by
  refine ⟨?_, ?_, by decide⟩
  · rw [looks_like_m3u8_none]
    exact M3U8_PAT_search_append_suffix s ['.', 'm', '3', 'u', '8'] (by decide)
  · rw [looks_like_m3u8_none]
    unfold M3U8_PAT_search
    rw [String.data_append, String.data_append]
    rw [List.append_assoc]
    apply m3u8Search_append_of_right
    show m3u8Search ('.' :: 'm' :: '3' :: 'u' :: '8' :: '?' :: q.data) = true
    simp [m3u8Search, m3u8At, restOk]

/-- C5 witness: the theorem instantiated at a concrete base URL and query. -/
theorem C5_witness :
    looks_like_m3u8 ("https://cdn.example.com/v" ++ ".m3u8") none = true :=
  (C5_thm "https://cdn.example.com/v" "token=abc").1

/-- C7 counterexample: the claim asserts that any URL containing the literal
substring `m3u8` anywhere is accepted as an HLS candidate, but a URL with
`m3u8` as a bare path segment is rejected — the pattern `\.m3u8(\?|$)`
requires a dot before and `?` or end-of-string after. -/
theorem C7_counterexample :
    strContains "https://cdn.example.com/m3u8list/seg.ts" "m3u8" = true ∧
    looks_like_m3u8 "https://cdn.example.com/m3u8list/seg.ts" none = false := by
  decide

/-- C7 (amended): with no content type, the classifier accepts a URL exactly
when it contains `.m3u8` (letters case-insensitive) followed immediately by a
`?`, by the end of the string, or by a newline that ends the string (Python's
`$` also matches before a trailing newline); a `m3u8` substring anywhere else
is not accepted. -/
theorem C7_thm (url : String) :
    looks_like_m3u8 url none = true ↔
      ∃ a m u rest, url.data = a ++ '.' :: m :: '3' :: u :: '8' :: rest ∧
        (m = 'm' ∨ m = 'M') ∧ (u = 'u' ∨ u = 'U') ∧
        (rest = [] ∨ rest = ['\n'] ∨ ∃ t, rest = '?' :: t) := by
  rw [looks_like_m3u8_none]
  unfold M3U8_PAT_search
  rw [m3u8Search_true_iff]
  constructor
  · rintro ⟨a, b, hab, hb⟩
    obtain ⟨m, u, rest, rfl, hm, hu, hr⟩ := (m3u8At_true_iff b).mp hb
    exact ⟨a, m, u, rest, hab, hm, hu, hr⟩
  · rintro ⟨a, m, u, rest, hab, hm, hu, hr⟩
    exact ⟨a, _, hab, (m3u8At_true_iff _).mpr ⟨m, u, rest, rfl, hm, hu, hr⟩⟩

/-- C9: the playback activator never raises — for every behaviour of the
frame's automation primitives (any of which may fail), `click_play_in_frame`
returns a Boolean, never propagates an error: selector and action failures
are swallowed and the next strategy is tried. -/
theorem C9_thm (env : FrameEnv) : ∃ b, click_play_in_frame env = Except.ok b :=
  clickPlayLoop_never_raises env COMMON_PLAY_SELECTORS

/-- C10: when the URL does not match the `.m3u8` pattern, classification via
content type succeeds exactly when the content type truncated at the first
`;` and stripped of surrounding whitespace is character-for-character one of
the three MIME strings; the comparison is case-sensitive, so all-lowercase
`application/x-mpegurl` is rejected while parameterized
`application/vnd.apple.mpegurl; charset=utf-8` is accepted. -/
theorem C10_thm :
    (∀ url ct : String, M3U8_PAT_search url = false →
      (looks_like_m3u8 url (some ct) = true ↔
        (ctCanon ct = "application/vnd.apple.mpegurl" ∨
         ctCanon ct = "application/x-mpegURL" ∨
         ctCanon ct = "audio/mpegurl"))) ∧
    looks_like_m3u8 "https://cdn.example.com/stream"
      (some "application/x-mpegurl") = false ∧
    looks_like_m3u8 "https://cdn.example.com/stream"
      (some "application/vnd.apple.mpegurl; charset=utf-8") = true := by
  refine ⟨?_, by decide, by decide⟩
  intro url ct h
  unfold looks_like_m3u8
  rw [h]
  simp only [Bool.false_eq_true, if_false]
  by_cases hct : ct = ""
  · subst hct
    simp [ctCanon, takeUntilSemi, stripWs]
  · have : (ct == "") = false := by simpa using hct
    rw [this]
    simp only [Bool.false_eq_true, if_false, M3U8_CT]
    rw [show (["application/vnd.apple.mpegurl", "application/x-mpegURL",
          "audio/mpegurl"].contains (ctCanon ct)) =
        (["application/vnd.apple.mpegurl", "application/x-mpegURL",
          "audio/mpegurl"].elem (ctCanon ct)) from rfl]
    constructor
    · intro hmem
      have := List.elem_iff.mp hmem
      simpa using this
    · intro hor
      apply List.elem_iff.mpr
      simpa using hor

/-- C10 witness: the equivalence instantiated at a concrete non-matching URL
and the bare `audio/mpegurl` content type. -/
theorem C10_witness :
    looks_like_m3u8 "https://cdn.example.com/stream" (some "audio/mpegurl") = true :=
  (C10_thm.1 "https://cdn.example.com/stream" "audio/mpegurl" (by decide)).mpr
    (Or.inr (Or.inr (by decide)))

/-- C1 counterexample: with an empty ledger at the end of the wait, the run
does not terminate normally with a `DEADLINE_EXCEEDED` capture result — it is
a process-level failure, `sys.exit(1)`, and it is the very same exit result
produced by a navigation timeout, so the two terminal outcomes are not
signalled distinctly. -/
theorem C1_counterexample :
    run .ok "https://example.com/page" ⟨[], [], [], []⟩ = .exit 1 ∧
    run .timeout "https://example.com/page" ⟨[], [], [], []⟩ = .exit 1 :=
  ⟨rfl, rfl⟩

/-- C1 (amended): if no manifest candidate has been recorded when the wait
completes, the run prints an error and exits the process with status 1 — no
result record is produced — and this is the same exit status used for a
navigation timeout, so only success is signalled distinctly. -/
theorem C1_thm (url : String) (env : PageEnv) (h : collect_manifests env = []) :
    run .ok url env = .exit 1 ∧ run .timeout url env = run .ok url env := by
  simp [run, h]

/-- C1 witness: the amended theorem instantiated at an event-free page. -/
theorem C1_witness :
    run .ok "https://example.com/page" ⟨[], [], [], []⟩ = .exit 1 :=
  (C1_thm "https://example.com/page" ⟨[], [], [], []⟩ rfl).1

/-- C2 counterexample: two URLs that differ only in their query string share
the spec's normalized dedup key, yet the ledger records both of them — the
code dedups by exact URL string equality, never stripping the query. -/
theorem C2_counterexample :
    specNormKey "https://cdn.example.com/s/x.m3u8?token=1" =
      specNormKey "https://cdn.example.com/s/x.m3u8?token=2" ∧
    "https://cdn.example.com/s/x.m3u8?token=1" ≠
      "https://cdn.example.com/s/x.m3u8?token=2" ∧
    (processEvents [] [.request "https://cdn.example.com/s/x.m3u8?token=1",
        .request "https://cdn.example.com/s/x.m3u8?token=2"]).map Candidate.url =
      ["https://cdn.example.com/s/x.m3u8?token=1",
       "https://cdn.example.com/s/x.m3u8?token=2"] := by
  decide

/-- C2 (amended): the ledger dedups by exact URL string equality — a URL
equal to an already-recorded candidate's URL leaves the ledger unchanged
(first observation wins), and otherwise `maybe_add` either leaves the ledger
unchanged or appends one candidate at the end (insertion order preserved);
URLs differing only in their query string are recorded separately. -/
theorem C2_thm (found : List Candidate) (kind url : String) (ct : Option String) :
    ((found.any fun x => x.url == url) = true → maybe_add found kind url ct = found) ∧
    (maybe_add found kind url ct = found ∨
      maybe_add found kind url ct =
        found ++ [{ url := url, content_type := ct.getD "", source := kind }]) := by
  constructor
  · intro h
    unfold maybe_add
    cases h0 : (url == "") with
    | true => simp [h0]
    | false =>
      cases hl : looks_like_m3u8 url ct with
      | false => simp [h0, hl]
      | true => simp [h0, hl, h]
  · unfold maybe_add
    cases h0 : (url == "") with
    | true => left; simp [h0]
    | false =>
      cases hl : looks_like_m3u8 url ct with
      | false => left; simp [h0, hl]
      | true =>
        cases ha : found.any (fun x => x.url == url) with
        | true => left; simp [h0, hl, ha]
        | false => right; simp [h0, hl, ha]

/-- C2 witness: re-observing the exact same URL leaves the ledger unchanged. -/
theorem C2_witness :
    maybe_add [⟨"https://cdn.example.com/s/x.m3u8", "", "request"⟩] "response"
        "https://cdn.example.com/s/x.m3u8" (some "") =
      [⟨"https://cdn.example.com/s/x.m3u8", "", "request"⟩] :=
  (C2_thm [⟨"https://cdn.example.com/s/x.m3u8", "", "request"⟩] "response"
    "https://cdn.example.com/s/x.m3u8" (some "")).1 (by decide)

/-- C3 counterexample: with a non-`master` candidate discovered first and a
`master` candidate discovered second, the run selects the first candidate —
the code takes `manifests[0]` unconditionally; no `master`/`index` preference
exists anywhere. -/
theorem C3_counterexample :
    run .ok "https://example.com/page"
        ⟨[.request "https://cdn.example.com/other.m3u8",
          .request "https://cdn.example.com/master.m3u8"], [], [], []⟩ =
      .success ⟨"https://example.com/page", "https://cdn.example.com/other.m3u8",
        [⟨"https://cdn.example.com/other.m3u8", "", "request"⟩,
         ⟨"https://cdn.example.com/master.m3u8", "", "request"⟩]⟩ ∧
    strContains "https://cdn.example.com/master.m3u8" "master" = true ∧
    strContains "https://cdn.example.com/other.m3u8" "master" = false ∧
    strContains "https://cdn.example.com/other.m3u8" "index" = false := by
  decide

/-- C3 (amended): for every non-empty ledger at resolution time, the run
selects the earliest-discovered candidate — the head of the ledger in
insertion order — regardless of any `master`/`index` substrings elsewhere. -/
theorem C3_thm (url : String) (env : PageEnv) (c : Candidate)
    (rest : List Candidate) (h : collect_manifests env = c :: rest) :
    run .ok url env = .success ⟨url, c.url, c :: rest⟩ := by
  simp only [run, h]

/-- C3 witness: the amended selection rule at a one-candidate page. -/
theorem C3_witness :
    run .ok "https://example.com/page"
        ⟨[.request "https://cdn.example.com/other.m3u8"], [], [], []⟩ =
      .success ⟨"https://example.com/page", "https://cdn.example.com/other.m3u8",
        [⟨"https://cdn.example.com/other.m3u8", "", "request"⟩]⟩ :=
  C3_thm "https://example.com/page"
    ⟨[.request "https://cdn.example.com/other.m3u8"], [], [], []⟩
    ⟨"https://cdn.example.com/other.m3u8", "", "request"⟩ [] (by decide)

/-- C4 counterexample: after a navigation timeout the run never attaches the
traffic handlers or observes anything — it prints an error, closes the
browser and exits with status 1, aborting the capture. -/
theorem C4_counterexample :
    Step.attachRequestHandler ∉ runTrace .timeout false ∧
    Step.observeAndActivate ∉ runTrace .timeout false ∧
    run .timeout "https://example.com/page" ⟨[], [], [], []⟩ = .exit 1 := by
  decide

/-- C4 (amended): a navigation timeout aborts the run — the caught timeout
leads straight to an error print, browser close and process exit 1, with no
traffic observation — while a hard navigation error (DNS failure, connection
refused) is not caught at all and propagates out of the run as an
exception. -/
theorem C4_thm (url : String) (env : PageEnv) (b : Bool) :
    run .timeout url env = .exit 1 ∧
    runTrace .timeout b =
      [.launchBrowser, .newContext, .newPage, .goto,
       .printError, .closeBrowser, .exitOne] ∧
    Step.attachRequestHandler ∉ runTrace .timeout b ∧
    run .hardError url env = .uncaught := by
  refine ⟨rfl, rfl, ?_, rfl⟩
  simp [runTrace]

/-- C6 counterexample: in the successful-navigation trace, `page.goto` comes
strictly before both handler registrations — the handlers are attached inside
`collect_manifests`, which runs only after navigation and the consent-click
pass, contradicting "registered before navigation begins". -/
theorem C6_counterexample :
    runTrace .ok false =
      [.launchBrowser, .newContext, .newPage, .goto, .consentClicks,
       .attachRequestHandler, .attachResponseHandler, .observeAndActivate,
       .storageState, .closeBrowser, .writeSessionInfo] ∧
    (runTrace .ok false).indexOf Step.goto <
      (runTrace .ok false).indexOf Step.attachRequestHandler := by
  decide

/-- C6 (amended): whenever the request handler is registered at all, both the
request and the response handler registrations come strictly after navigation
in the run's step order, so requests issued during navigation can be missed. -/
theorem C6_thm (nav : NavResult) (b : Bool)
    (h : Step.attachRequestHandler ∈ runTrace nav b) :
    (runTrace nav b).indexOf Step.goto <
      (runTrace nav b).indexOf Step.attachRequestHandler ∧
    (runTrace nav b).indexOf Step.goto <
      (runTrace nav b).indexOf Step.attachResponseHandler := by
  cases nav <;> cases b <;> revert h <;> decide

/-- C6 witness: the amended ordering at the successful, manifest-found
trace. -/
theorem C6_witness :
    (runTrace .ok false).indexOf Step.goto <
      (runTrace .ok false).indexOf Step.attachRequestHandler ∧
    (runTrace .ok false).indexOf Step.goto <
      (runTrace .ok false).indexOf Step.attachResponseHandler :=
  C6_thm .ok false (by decide)

/-- C8 counterexample: a page whose DOM carries a `<video><source
src="...m3u8">` element but which issues no manifest-like network request
yields an empty ledger and an error exit — there is no DOM probe in the
code, so the run does not end with `FOUND` for that URL. -/
theorem C8_counterexample :
    (PageEnv.mk [] [] [] ["https://cdn.example.com/v.m3u8"]).domVideoSources =
      ["https://cdn.example.com/v.m3u8"] ∧
    collect_manifests ⟨[], [], [], ["https://cdn.example.com/v.m3u8"]⟩ = [] ∧
    run .ok "https://example.com/page"
      ⟨[], [], [], ["https://cdn.example.com/v.m3u8"]⟩ = .exit 1 :=
  ⟨rfl, rfl, rfl⟩

/-- C8 (amended): the engine never inspects the DOM for `<video>`/`<source>`
URLs — whatever the DOM contains, a page with no manifest-like network
traffic produces an empty candidate list and the run exits with status 1. -/
theorem C8_thm (dom : List String) (url : String) :
    collect_manifests ⟨[], [], [], dom⟩ = [] ∧
    run .ok url ⟨[], [], [], dom⟩ = .exit 1 :=
  ⟨rfl, rfl⟩

end Capture
